import Mathlib

/-!
Verification of the roadmap page of the TechSprint frontend.

Shallow embedding of `frontend/src/app/roadmap/page.tsx` and of the
`roadmapAPI` client (`lib/api.ts`).  React `useState` cells become the
fields of `PageState`; each event handler becomes a pure state-transition
function; the outcome of an awaited HTTP call is an explicit
`RequestOutcome` argument; JavaScript falsy-default expressions
(`x || d`) are translated case by case on `Option`.
-/

namespace VelionX

/-- `interface Task` of `roadmap/page.tsx`. -/
structure Task where
  task_id : String
  title : String
  description : String
  resource_type : String
  resource_url : Option String
  duration_minutes : Nat
  completed : Bool
  deriving Repr, DecidableEq

/-- `interface DayPlan` of `roadmap/page.tsx`. -/
structure DayPlan where
  day : Nat
  date : String
  tasks : List Task
  focus_area : String
  deriving Repr, DecidableEq

/-- `interface WeekPlan` of `roadmap/page.tsx`. -/
structure WeekPlan where
  week : Nat
  theme : String
  days : List DayPlan
  milestone : String
  deriving Repr, DecidableEq

/-- `interface Roadmap` of `roadmap/page.tsx`.  `progress` is read on the
page as `roadmap.progress || 0`, so it is embedded as an `Option` to keep
the absent case distinguishable. -/
structure Roadmap where
  roadmap_id : String
  student_id : String
  target_company : Option String
  target_role : Option String
  duration_weeks : Nat
  current_week : Nat
  progress : Option Nat
  weeks : List WeekPlan
  created_at : String
  deriving Repr, DecidableEq

/-- The `useState` cells of `RoadmapPage` that the handlers mutate
(`roadmap`, `currentWeek`, `todaysTasks`). -/
structure PageState where
  roadmap : Option Roadmap
  currentWeek : Nat
  todaysTasks : List Task
  deriving Repr, DecidableEq

/-- Outcome of an awaited HTTP call inside a handler. -/
inductive RequestOutcome where
  | success
  | failure
  deriving Repr, DecidableEq

/-- Body of `roadmapAPI.updateProgress`: the literal `{ task_id: taskId }`.
The spec-level signature allows an optional timestamp, so the field is
present as an `Option` and the client leaves it absent. -/
structure ProgressRequestBody where
  task_id : String
  timestamp : Option String
  deriving Repr, DecidableEq

/-- The POST request issued by `roadmapAPI.updateProgress`. -/
structure UpdateProgressRequest where
  url : String
  body : ProgressRequestBody
  deriving Repr, DecidableEq

/-- `updateProgress: (roadmapId, taskId) => api.post(.../progress, { task_id: taskId })`. -/
def updateProgress (roadmapId taskId : String) : UpdateProgressRequest :=
  { url := "/roadmap/" ++ roadmapId ++ "/progress"
    body := { task_id := taskId, timestamp := none } }

/-- The per-task branch of `completeTask`'s local update:
`task.task_id === taskId ? { ...task, completed: true } : task`. -/
def markTask (taskId : String) (task : Task) : Task :=
  if task.task_id == taskId then { task with completed := true } else task

/-- The `setTodaysTasks(prev => prev.map(...))` update of `completeTask`. -/
def markCompleted (taskId : String) (tasks : List Task) : List Task :=
  tasks.map (markTask taskId)

/-- The `completeTask` handler: early return when no roadmap is loaded
(no request is issued), otherwise `await updateProgress`; the local task
list is marked only when the request succeeds, the `catch` branch leaves
state untouched.  The second component is the request that was sent, if
any. -/
def completeTask (taskId : String) (outcome : RequestOutcome) (s : PageState) :
    PageState × Option UpdateProgressRequest :=
  match s.roadmap with
  | none => (s, none)
  | some r =>
    match outcome with
    | RequestOutcome.success =>
        ({ s with todaysTasks := markCompleted taskId s.todaysTasks },
         some (updateProgress r.roadmap_id taskId))
    | RequestOutcome.failure => (s, some (updateProgress r.roadmap_id taskId))

/-- The `generateRoadmap` handler on the state cells: on success it stores
the response roadmap and runs `setCurrentWeek(1)`; the `catch` branch
leaves state untouched. -/
def generateRoadmapStep (outcome : RequestOutcome) (newRoadmap : Roadmap)
    (s : PageState) : PageState :=
  match outcome with
  | RequestOutcome.success => { s with roadmap := some newRoadmap, currentWeek := 1 }
  | RequestOutcome.failure => s

/-- `setCurrentWeek(prev => Math.max(1, prev - 1))` (previous-week button). -/
def prevWeek (cw : Nat) : Nat := max 1 (cw - 1)

/-- `setCurrentWeek(prev => Math.min(roadmap.duration_weeks, prev + 1))`
(next-week button). -/
def nextWeek (durationWeeks cw : Nat) : Nat := min durationWeeks (cw + 1)

/-- A week-navigation action of the weekly view. -/
inductive WeekNav where
  | prev
  | next
  deriving Repr, DecidableEq

/-- One step of the week navigation. -/
def navStep (durationWeeks : Nat) : WeekNav → Nat → Nat
  | WeekNav.prev, cw => prevWeek cw
  | WeekNav.next, cw => nextWeek durationWeeks cw

/-- `setCurrentWeek(response.data.current_week || 1)` in `loadRoadmap`:
an absent field and the falsy value `0` both default to `1`. -/
def loadCurrentWeek (serverWeek : Option Nat) : Nat :=
  match serverWeek with
  | none => 1
  | some w => if w = 0 then 1 else w

/-- The progress figure the page renders: `roadmap.progress || 0`
(both in the header and in the progress bar). -/
def displayedProgress (progress : Option Nat) : Nat :=
  match progress with
  | none => 0
  | some p => p

/-- The guard of the task checkbox:
`onClick={() => !task.completed && completeTask(task.task_id)}` —
`completeTask` is invoked exactly when this is `true`. -/
def checkboxInvokesComplete (task : Task) : Bool := !task.completed

/-- The `generationParams` form state. -/
structure GenerationParams where
  duration_weeks : Nat
  daily_commitment : String
  target_company : String
  target_role : String
  deriving Repr, DecidableEq

/-- The initial `useState` value of `generationParams`. -/
def initialGenerationParams : GenerationParams :=
  { duration_weeks := 12
    daily_commitment := "2 hours"
    target_company := ""
    target_role := "" }

/-- The `<option>` values of the duration selector, in document order. -/
def durationOptions : List Nat := [4, 8, 12, 16]

/-- A form interaction on the generation form: the duration selector only
offers the entries of `durationOptions`, the other three inputs are free
text / free selection. -/
inductive FormEvent where
  | setDuration : Fin durationOptions.length → FormEvent
  | setCommitment : String → FormEvent
  | setCompany : String → FormEvent
  | setRole : String → FormEvent

/-- The `onChange` handlers of the generation form
(`setGenerationParams(prev => ({ ...prev, field: value }))`). -/
def applyFormEvent : FormEvent → GenerationParams → GenerationParams
  | FormEvent.setDuration i, p => { p with duration_weeks := durationOptions.get i }
  | FormEvent.setCommitment v, p => { p with daily_commitment := v }
  | FormEvent.setCompany v, p => { p with target_company := v }
  | FormEvent.setRole v, p => { p with target_role := v }

/-- The payload `generateRoadmap` posts to `roadmapAPI.generate`:
`{ student_id, duration_weeks, daily_commitment, company_id }`, where
`company_id` is `generationParams.target_company || undefined` (the empty
string is falsy).  No `target_role` field exists in the payload. -/
structure GeneratePayload where
  student_id : String
  duration_weeks : Nat
  daily_commitment : String
  company_id : Option String
  deriving Repr, DecidableEq

/-- Construction of the generation payload from the form state. -/
def generatePayload (studentId : String) (p : GenerationParams) : GeneratePayload :=
  { student_id := studentId
    duration_weeks := p.duration_weeks
    daily_commitment := p.daily_commitment
    company_id := if p.target_company = "" then none else some p.target_company }

/-! ### Sample data for witnesses -/

/-- Task id used by the sample data. -/
def tidA : String := "t1"

/-- A pending sample task. -/
def sampleTask : Task :=
  { task_id := "t1"
    title := "Learn SQL"
    description := "Joins and aggregation"
    resource_type := "video"
    resource_url := none
    duration_minutes := 30
    completed := false }

/-- A completed sample task. -/
def sampleTaskDone : Task :=
  { task_id := "t2"
    title := "Read article"
    description := "Indexing basics"
    resource_type := "article"
    resource_url := none
    duration_minutes := 20
    completed := true }

/-- A sample roadmap. -/
def sampleRoadmap : Roadmap :=
  { roadmap_id := "r1"
    student_id := "s1"
    target_company := none
    target_role := none
    duration_weeks := 4
    current_week := 1
    progress := some 0
    weeks := []
    created_at := "2026-01-01" }

/-- Page state before any roadmap is loaded. -/
def emptyState : PageState :=
  { roadmap := none, currentWeek := 1, todaysTasks := [sampleTask] }

/-- Page state with the sample roadmap loaded. -/
def loadedState : PageState :=
  { roadmap := some sampleRoadmap
    currentWeek := 1
    todaysTasks := [sampleTask, sampleTaskDone] }

/-! ### Helper lemmas -/

/-- Marking a task twice with the same id is the same as marking it once. -/
theorem markTask_idem (taskId : String) (t : Task) :
    markTask taskId (markTask taskId t) = markTask taskId t := by
  cases h : t.task_id == taskId <;> simp [markTask, h]

/-- Marking a list twice with the same id is the same as marking it once. -/
theorem markCompleted_idem (taskId : String) (ts : List Task) :
    markCompleted taskId (markCompleted taskId ts) = markCompleted taskId ts := by
  simp only [markCompleted, List.map_map]
  exact List.map_congr_left fun t _ => markTask_idem taskId t

/-- `markTask` never clears the completed flag. -/
theorem markTask_completed_mono (taskId : String) (t : Task)
    (h : t.completed = true) : (markTask taskId t).completed = true := by
  cases hb : t.task_id == taskId <;> simp [markTask, hb, h]

/-- `markTask` leaves a task with a different id untouched. -/
theorem markTask_of_ne (taskId : String) (t : Task) (h : ¬ t.task_id = taskId) :
    markTask taskId t = t := by
  simp [markTask, h]

/-- On the matching id, `markTask` sets `completed` and keeps every other
field. -/
theorem markTask_of_eq (taskId : String) (t : Task) (h : t.task_id = taskId) :
    markTask taskId t = { t with completed := true } := by
  simp [markTask, h]

/-- Form interactions keep `duration_weeks` inside `durationOptions`. -/
theorem applyFormEvent_duration_mem (e : FormEvent) (p : GenerationParams)
    (h : p.duration_weeks ∈ durationOptions) :
    (applyFormEvent e p).duration_weeks ∈ durationOptions := by
  cases e with
  | setDuration i => exact List.get_mem durationOptions i.1 i.2
  | setCommitment v => exact h
  | setCompany v => exact h
  | setRole v => exact h

/-- Folding any sequence of form interactions keeps `duration_weeks`
inside `durationOptions`. -/
theorem foldl_duration_mem (events : List FormEvent) (p : GenerationParams)
    (h : p.duration_weeks ∈ durationOptions) :
    (events.foldl (fun q e => applyFormEvent e q) p).duration_weeks ∈ durationOptions := by
  induction events generalizing p with
  | nil => exact h
  | cons e es ih => exact ih _ (applyFormEvent_duration_mem e p h)

/-! ### Claims -/

/-- C1: recording a task completion is idempotent — applying
`completeTask`'s successful state update twice yields exactly the state
obtained after applying it once; the second application changes
nothing. -/
theorem completeTask_idempotent (taskId : String) (s : PageState) :
    (completeTask taskId RequestOutcome.success
        (completeTask taskId RequestOutcome.success s).1).1
      = (completeTask taskId RequestOutcome.success s).1 := by
  cases hr : s.roadmap with
  | none => simp [completeTask, hr]
  | some r => simp [completeTask, hr, markCompleted_idem]

/-- C7: after every successful `generateRoadmap` call the displayed
current week is reset to 1, regardless of the week displayed before. -/
theorem generate_resets_current_week (newRoadmap : Roadmap) (s : PageState) :
    (generateRoadmapStep RequestOutcome.success newRoadmap s).currentWeek = 1 := rfl

/-- C8: the completion request of the client carries a body of exactly
`\x7b task_id: taskId \x7d`; no timestamp is ever included, so the
spec's call-time default applies to every completion the UI records. -/
theorem updateProgress_body_exact (roadmapId taskId : String) :
    (updateProgress roadmapId taskId).body
      = { task_id := taskId, timestamp := none } := rfl

/-- C9: the user-entered target role never influences roadmap generation —
two form states that differ only in `target_role` produce identical
generation payloads (which contain no `target_role` field). -/
theorem target_role_noninterference (studentId : String) (p : GenerationParams)
    (r : String) :
    generatePayload studentId { p with target_role := r }
      = generatePayload studentId p := rfl

/-- C2: the current-week pointer stays within bounds — from any displayed
week in `[1, duration_weeks]`, both navigation buttons keep the displayed
week in `[1, duration_weeks]`, and loading a roadmap whose stored
`current_week` respects its own `duration_weeks` bound also lands in
`[1, duration_weeks]`. -/
theorem currentWeek_in_bounds (d cw : Nat) (serverWeek : Option Nat) (nav : WeekNav)
    (hlo : 1 ≤ cw) (hhi : cw ≤ d)
    (hsw : ∀ w, serverWeek = some w → w ≤ d) :
    (1 ≤ navStep d nav cw ∧ navStep d nav cw ≤ d) ∧
    (1 ≤ loadCurrentWeek serverWeek ∧ loadCurrentWeek serverWeek ≤ d) := by
  have hd : 1 ≤ d := hlo.trans hhi
  constructor
  · cases nav with
    | prev =>
      simp only [navStep, prevWeek]
      omega
    | next =>
      simp only [navStep, nextWeek]
      omega
  · cases serverWeek with
    | none =>
      simp only [loadCurrentWeek]
      omega
    | some w =>
      have hw : w ≤ d := hsw w rfl
      simp only [loadCurrentWeek]
      by_cases h0 : w = 0
      · simp [h0]
        omega
      · simp [h0]
        omega

/-- Witness for C2 at `d = 4`, `cw = 2`, a stored week of 3 and the
previous-week action. -/
theorem currentWeek_in_bounds_witness :
    (1 ≤ navStep 4 WeekNav.prev 2 ∧ navStep 4 WeekNav.prev 2 ≤ 4) ∧
    (1 ≤ loadCurrentWeek (some 3) ∧ loadCurrentWeek (some 3) ≤ 4) :=
  currentWeek_in_bounds 4 2 (some 3) WeekNav.prev (by decide) (by decide)
    (by intro w hw; simp at hw; omega)

/-- C3: task completion is a one-way transition — `completeTask`'s update
never turns a completed task back to pending (position by position), and
the checkbox handler never invokes `completeTask` on an already-completed
task. -/
theorem completion_one_way (taskId : String) (ts : List Task) (i : Nat) (t : Task)
    (hget : ts[i]? = some t) (hc : t.completed = true) :
    ((markCompleted taskId ts)[i]? = some (markTask taskId t) ∧
      (markTask taskId t).completed = true) ∧
    checkboxInvokesComplete t = false := by
  refine ⟨⟨?_, markTask_completed_mono taskId t hc⟩, ?_⟩
  · simp [markCompleted, hget]
  · simp [checkboxInvokesComplete, hc]

/-- Witness for C3 at the completed sample task. -/
theorem completion_one_way_witness :
    ((markCompleted tidA [sampleTaskDone])[0]? = some (markTask tidA sampleTaskDone) ∧
      (markTask tidA sampleTaskDone).completed = true) ∧
    checkboxInvokesComplete sampleTaskDone = false :=
  completion_one_way tidA [sampleTaskDone] 0 sampleTaskDone rfl rfl

/-- C4: `completeTask`'s successful update is frame-exact — the loaded
roadmap object and the displayed week are unchanged, the task list keeps
its length and order, tasks with a different id are untouched, and the
matching task keeps every field except `completed`, which becomes
`true`. -/
theorem completeTask_frame (taskId : String) (s : PageState) (r : Roadmap)
    (hr : s.roadmap = some r) :
    (completeTask taskId RequestOutcome.success s).1.roadmap = s.roadmap ∧
    (completeTask taskId RequestOutcome.success s).1.currentWeek = s.currentWeek ∧
    (completeTask taskId RequestOutcome.success s).1.todaysTasks.length
      = s.todaysTasks.length ∧
    ∀ (i : Nat) (t : Task), s.todaysTasks[i]? = some t →
      (completeTask taskId RequestOutcome.success s).1.todaysTasks[i]?
        = some (markTask taskId t) ∧
      (¬ t.task_id = taskId → markTask taskId t = t) ∧
      (t.task_id = taskId →
        (markTask taskId t).task_id = t.task_id ∧
        (markTask taskId t).title = t.title ∧
        (markTask taskId t).description = t.description ∧
        (markTask taskId t).resource_type = t.resource_type ∧
        (markTask taskId t).resource_url = t.resource_url ∧
        (markTask taskId t).duration_minutes = t.duration_minutes ∧
        (markTask taskId t).completed = true) := by
  refine ⟨?_, ?_, ?_, ?_⟩
  · simp [completeTask, hr]
  · simp [completeTask, hr]
  · simp [completeTask, hr, markCompleted]
  · intro i t hget
    refine ⟨?_, ?_, ?_⟩
    · simp [completeTask, hr, markCompleted, hget]
    · exact markTask_of_ne taskId t
    · intro heq
      rw [markTask_of_eq taskId t heq]
      exact ⟨rfl, rfl, rfl, rfl, rfl, rfl, rfl⟩

/-- Witness for C4 at the loaded sample state and the pending sample
task, whose id matches the completed one. -/
theorem completeTask_frame_witness :
    (completeTask tidA RequestOutcome.success loadedState).1.roadmap
      = loadedState.roadmap ∧
    (completeTask tidA RequestOutcome.success loadedState).1.currentWeek
      = loadedState.currentWeek ∧
    (completeTask tidA RequestOutcome.success loadedState).1.todaysTasks[0]?
      = some (markTask tidA sampleTask) ∧
    (markTask tidA sampleTask).duration_minutes = sampleTask.duration_minutes ∧
    (markTask tidA sampleTask).completed = true := by
  have h := completeTask_frame tidA loadedState sampleRoadmap rfl
  have h0 := h.2.2.2 0 sampleTask rfl
  have hf := h0.2.2 rfl
  exact ⟨h.1, h.2.1, h0.1, hf.2.2.2.2.2.1, hf.2.2.2.2.2.2⟩

/-- C5: every generation request the UI can issue has `duration_weeks` in
`\x7b4, 8, 12, 16\x7d` — the selector offers exactly these options, the
initial form state is 12, any sequence of form interactions keeps the
value in the set, and the payload carries the selected value
unmodified. -/
theorem generation_duration_enumerated (events : List FormEvent)
    (studentId : String) (p : GenerationParams) :
    durationOptions = [4, 8, 12, 16] ∧
    initialGenerationParams.duration_weeks = 12 ∧
    (events.foldl (fun q e => applyFormEvent e q)
        initialGenerationParams).duration_weeks ∈ durationOptions ∧
    (generatePayload studentId p).duration_weeks = p.duration_weeks := by
  refine ⟨rfl, rfl, ?_, rfl⟩
  exact foldl_duration_mem events initialGenerationParams (by decide)

/-- C6 counterexample: for an absent `progress` field the page renders
`roadmap.progress || 0`, i.e. 0 — not the 100 the claim states. -/
theorem displayedProgress_absent_not_100 : ¬ displayedProgress none = 100 := by
  decide

/-- C6 amended: for an absent or zero `progress` field the page reports
0% overall progress (the code defaults missing progress to 0, not to the
spec's 100%-by-convention for empty roadmaps). -/
theorem displayedProgress_absent_is_zero :
    displayedProgress none = 0 ∧ displayedProgress (some 0) = 0 := by
  exact ⟨rfl, rfl⟩

/-- C10: completion recording is atomic for local state — a failed
request leaves the page state completely unchanged, no request at all is
sent when no roadmap is loaded (and the state is unchanged), and only a
successful request marks the task list. -/
theorem completeTask_atomic (taskId : String) (s : PageState) :
    (completeTask taskId RequestOutcome.failure s).1 = s ∧
    (s.roadmap = none →
      ∀ outcome, (completeTask taskId outcome s).1 = s ∧
        (completeTask taskId outcome s).2 = none) ∧
    (∀ r, s.roadmap = some r →
      (completeTask taskId RequestOutcome.success s).1.todaysTasks
          = markCompleted taskId s.todaysTasks ∧
        (completeTask taskId RequestOutcome.success s).2
          = some (updateProgress r.roadmap_id taskId)) := by
  refine ⟨?_, ?_, ?_⟩
  · cases hr : s.roadmap <;> simp [completeTask, hr]
  · intro hn outcome
    simp [completeTask, hn]
  · intro r hr
    simp [completeTask, hr]

/-- Witness for C10: with no roadmap loaded, a failed and a successful
call both leave the state unchanged and send no request. -/
theorem completeTask_atomic_witness :
    (completeTask tidA RequestOutcome.failure emptyState).1 = emptyState ∧
    (completeTask tidA RequestOutcome.success emptyState).1 = emptyState ∧
    (completeTask tidA RequestOutcome.success emptyState).2 = none := by
  have h := completeTask_atomic tidA emptyState
  exact ⟨h.1, (h.2.1 rfl RequestOutcome.success).1, (h.2.1 rfl RequestOutcome.success).2⟩

end VelionX
